import Mathlib

/-!
Shallow embedding of the BonEngine 2D rendering core
(src/BonEngine/src/Gfx/Gfx.cpp and src/BonEngine/src/Gfx/GfxSdlWrapper.cpp),
with theorems about the rendering facade and the SDL device backend.

Machine integers are modelled as Int, float values as Rat. Code that can
fail (a thrown exception, or a dereference of a null asset handle) is
modelled with Except / explicit outcome constructors.
-/

namespace BonEngine

/-- Window blend modes, from inc/Gfx/Defs.h (enum class BlendModes). -/
inductive BlendModes where
  | Opaque
  | AlphaBlend
  | Additive
  | Darken
  | Multiply
  | Screen
  | Invert
  | Difference
  | Lighten
  | AdditiveAlpha
deriving DecidableEq, Repr

/-- Integer point (Framework/Point.h PointI is not under src/). Modelled from the
spec: a pair of integer coordinates X, Y. -/
structure PointI where
  X : Int
  Y : Int
deriving DecidableEq, Repr

/-- Float point (Framework/Point.h PointF is not under src/). Modelled from the
spec: a pair of float coordinates, floats embedded as rationals. -/
structure PointF where
  X : Rat
  Y : Rat
deriving DecidableEq, Repr

/-- Integer rectangle (Framework/Rectangle.h RectangleI is not under src/).
Modelled from the spec: position X, Y plus Width, Height. -/
structure RectangleI where
  X : Int
  Y : Int
  Width : Int
  Height : Int
deriving DecidableEq, Repr

/-- Modelled from the spec: RectangleI::Empty (Framework/Rectangle.h is not under
src/). The spec treats a rectangle as unset when it is zero/empty, i.e. it has
no area: a zero width or a zero height. -/
def RectangleI.Empty (r : RectangleI) : Bool :=
  r.Width == 0 || r.Height == 0

/-- RGBA color (Framework/Color.h is not under src/). Modelled from the spec:
four float components R, G, B, A in 0..1, floats embedded as rationals. -/
structure Color where
  R : Rat
  G : Rat
  B : Rat
  A : Rat
deriving DecidableEq, Repr

/-- An image asset handle as the rendering core sees it: width, height and the
has-alpha flag of SDL_ImageHandle (GfxSdlWrapper.cpp). The opaque GPU texture
reference itself is irrelevant to the drawing arithmetic. -/
structure Image where
  Width : Int
  Height : Int
  HaveAlphaChannel : Bool
deriving DecidableEq, Repr

/-- Floor of a rational, as the integer result of C floor() cast to int. -/
def ratFloor (q : Rat) : Int :=
  Int.fdiv q.num q.den

/-- C-style cast of a float value to int: truncation toward zero. -/
def truncToInt (q : Rat) : Int :=
  if 0 ≤ q then ratFloor q else - ratFloor (- q)

/-- GfxSdlWrapper.cpp SizeOrDefault: resolves a requested size with 0 components,
independently per axis, to the source rectangle dimension when one is given and
non-zero, else to the image natural dimension; non-zero components pass through. -/
def SizeOrDefault (size : PointI) (sourceRect : Option RectangleI) (sourceImage : Image) : PointI :=
  if size.X = 0 ∨ size.Y = 0 then
    { X :=
        if size.X = 0 then
          match sourceRect with
          | some sr => if sr.Width ≠ 0 then sr.Width else sourceImage.Width
          | none => sourceImage.Width
        else size.X
      Y :=
        if size.Y = 0 then
          match sourceRect with
          | some sr => if sr.Height ≠ 0 then sr.Height else sourceImage.Height
          | none => sourceImage.Height
        else size.Y }
  else size

/-- The facade state read by Gfx::RenderableSize (Gfx.cpp): the currently set
render target, the currently set viewport (RectangleI::Zero when unset) and the
window size reported by the backend. -/
structure GfxState where
  renderTarget : Option Image
  viewport : RectangleI
  windowWidth : Int
  windowHeight : Int
deriving DecidableEq, Repr

/-- Gfx::RenderableSize (Gfx.cpp): starts from the render target size when one is
set, merges the viewport size per axis (taking the value when the axis is still
0, else the minimum), then merges the window size the same way. -/
def Gfx.RenderableSize (st : GfxState) : PointI :=
  let ret1 : PointI :=
    match st.renderTarget with
    | some rt => { X := rt.Width, Y := rt.Height }
    | none => { X := 0, Y := 0 }
  let ret2 : PointI :=
    if st.viewport.Empty then ret1
    else
      { X := if ret1.X = 0 then st.viewport.Width else min ret1.X st.viewport.Width
        Y := if ret1.Y = 0 then st.viewport.Height else min ret1.Y st.viewport.Height }
  { X := if ret2.X = 0 then st.windowWidth else min ret2.X st.windowWidth
    Y := if ret2.Y = 0 then st.windowHeight else min ret2.Y st.windowHeight }

/-- One axis of the renderable size as the spec words it: the minimum of the
values that are set among render-target size, viewport size and window size,
falling back to the window size when the other two are unset. -/
def specAxisSize (rt : Option Int) (vp : Option Int) (win : Int) : Int :=
  match rt, vp with
  | none, none => win
  | some r, none => min r win
  | none, some v => min v win
  | some r, some v => min r (min v win)

/-- Errors thrown synchronously by the gfx backend (Framework/Exceptions.h). -/
inductive GfxError where
  | InvalidValue
deriving DecidableEq, Repr

/-- The effect pipeline state held by GfxSdlWrapper: the currently bound effect
asset, the two built-in effects loaded at window creation (none before that),
the rotation/anchor memoization reset on every switch, plus observation
counters for GfxOpenGL::SetShaderProgram calls and RestoreDefaultStates calls.
Effect assets are identified by their program handle, modelled as Nat. -/
structure EffectsState where
  currentEffect : Option Nat
  defaultEffect : Option Nat
  defaultEffectShapes : Option Nat
  lastRotation : Rat
  lastAnchor : PointF
  binds : Nat
  stateResets : Nat
deriving DecidableEq, Repr

/-- GfxSdlWrapper::SetCurrentEffectFromAsset (GfxSdlWrapper.cpp): throws
InvalidValue on a null effect asset; when the requested effect differs from the
current one it resets the rotation/anchor memoization, binds the shader program,
stores the new current effect and restores default states; otherwise it does
nothing. -/
def GfxSdlWrapper.SetCurrentEffectFromAsset (effect : Option Nat) (st : EffectsState) :
    Except GfxError EffectsState :=
  match effect with
  | none => Except.error GfxError.InvalidValue
  | some e =>
    if some e ≠ st.currentEffect then
      Except.ok
        { st with
          lastRotation := -9999999999999
          lastAnchor := { X := -9999999999, Y := -9999999999 }
          binds := st.binds + 1
          currentEffect := some e
          stateResets := st.stateResets + 1 }
    else
      Except.ok st

/-- GfxSdlWrapper::SetEffect (GfxSdlWrapper.cpp): the null sentinel switches to
the default textured effect, otherwise the requested effect is set. -/
def GfxSdlWrapper.SetEffect (effect : Option Nat) (st : EffectsState) :
    Except GfxError EffectsState :=
  match effect with
  | none => GfxSdlWrapper.SetCurrentEffectFromAsset st.defaultEffect st
  | some e => GfxSdlWrapper.SetCurrentEffectFromAsset (some e) st

/-- A sequence of n consecutive backend effect requests for the same effect, as
issued by n consecutive draw calls that all request that effect. -/
def GfxSdlWrapper.SetCurrentEffectN (effect : Option Nat) (n : Nat) (st : EffectsState) :
    Except GfxError EffectsState :=
  match n with
  | 0 => Except.ok st
  | Nat.succ m =>
    match GfxSdlWrapper.SetCurrentEffectFromAsset effect st with
    | Except.ok st2 => GfxSdlWrapper.SetCurrentEffectN effect m st2
    | Except.error e => Except.error e

/-- One call from the Gfx facade (Gfx.cpp) into the GfxSdlWrapper implementor,
with the arguments the facade passes after resolving its defaults. -/
inductive ImplCall where
  | image (sourceImage : Option Image) (position : PointF) (size : PointI)
      (blend : BlendModes) (sourceRect : Option RectangleI) (origin : PointF)
      (rotation : Rat) (color : Color)
  | text (font : Nat) (text : String) (position : PointF) (color : Color)
      (fontSize : Int) (blend : BlendModes) (origin : PointF) (rotation : Rat)
      (maxWidth : Int)
  | line (p1 : PointI) (p2 : PointI) (color : Color) (blend : BlendModes)
  | pixel (position : PointI) (color : Color) (blend : BlendModes)
  | rectangle (rect : RectangleI) (color : Color) (filled : Bool)
      (blend : BlendModes) (origin : PointF) (rotation : Rat)
  | circleFill (center : PointI) (radius : Int) (color : Color) (blend : BlendModes)
  | circleLines (center : PointI) (radius : Int) (color : Color) (blend : BlendModes)
  | polygon (a : PointI) (b : PointI) (c : PointI) (color : Color) (blend : BlendModes)
  | quad (a : PointI) (b : PointI) (c : PointI) (d : PointI) (color : Color)
      (blend : BlendModes)
  | clear (color : Color) (rect : RectangleI)
deriving DecidableEq, Repr

/-- What one Gfx facade operation does: how many times it increments the
DrawCalls diagnostics counter, and which implementor calls it issues. -/
structure GfxResult where
  drawCalls : Nat
  calls : List ImplCall
deriving DecidableEq, Repr

/-- Gfx::DrawImage (Gfx.cpp, full overload): increments the DrawCalls counter,
then delegates to the implementor with defaults resolved for the size (0,0),
origin (0,0) and color white pointers. No validity check on the image. -/
def Gfx.DrawImage (sourceImage : Option Image) (position : PointF) (size : Option PointI)
    (blend : BlendModes) (sourceRect : Option RectangleI) (origin : Option PointF)
    (rotation : Rat) (color : Option Color) : GfxResult :=
  { drawCalls := 1
    calls := [ImplCall.image sourceImage position (size.getD { X := 0, Y := 0 }) blend
        sourceRect (origin.getD { X := 0, Y := 0 }) rotation
        (color.getD { R := 1, G := 1, B := 1, A := 1 })] }

/-- The nine loop iterations of the Gfx::DrawText outline loop, in source order,
minus the skipped center. -/
def outlineOffsets : List (Int × Int) :=
  (([-1, 0, 1] : List Int).flatMap fun i => ([-1, 0, 1] : List Int).map fun j => (i, j)).filter
    fun p => !(p.1 == 0 && p.2 == 0)

/-- Gfx::DrawText (Gfx.cpp): when outlineWidth is positive, issues one offset
implementor draw per outline loop iteration, each preceded by a counter
increment, at offsets i * outlineWidth, j * outlineWidth in the outline color
(default black); then one counter increment and the fill draw at the unshifted
position in the text color (default white). -/
def Gfx.DrawText (font : Nat) (text : String) (position : PointF) (color : Option Color)
    (fontSize : Int) (maxWidth : Int) (blend : BlendModes) (origin : Option PointF)
    (rotation : Rat) (outlineWidth : Int) (outlineColor : Option Color) : GfxResult :=
  let defaultColor : Color := { R := 1, G := 1, B := 1, A := 1 }
  let defaultOutlineColor : Color := { R := 0, G := 0, B := 0, A := 1 }
  let defaultOrigin : PointF := { X := 0, Y := 0 }
  let outline : List ImplCall :=
    if 0 < outlineWidth then
      outlineOffsets.map fun p =>
        ImplCall.text font text
          { X := position.X + (p.1 : Rat) * (outlineWidth : Rat)
            Y := position.Y + (p.2 : Rat) * (outlineWidth : Rat) }
          (outlineColor.getD defaultOutlineColor) fontSize blend
          (origin.getD defaultOrigin) rotation maxWidth
    else []
  { drawCalls := outline.length + 1
    calls := outline ++ [ImplCall.text font text position (color.getD defaultColor)
        fontSize blend (origin.getD defaultOrigin) rotation maxWidth] }

/-- Gfx::DrawLine (Gfx.cpp): one counter increment, one implementor call. -/
def Gfx.DrawLine (p1 : PointI) (p2 : PointI) (color : Color) (blendMode : BlendModes) :
    GfxResult :=
  { drawCalls := 1, calls := [ImplCall.line p1 p2 color blendMode] }

/-- Gfx::DrawPixel (Gfx.cpp): one counter increment, one implementor call. -/
def Gfx.DrawPixel (position : PointI) (color : Color) (blendMode : BlendModes) : GfxResult :=
  { drawCalls := 1, calls := [ImplCall.pixel position color blendMode] }

/-- Gfx::DrawRectangle (Gfx.cpp): one counter increment, one implementor call
with the origin pointer defaulting to PointF::Zero. -/
def Gfx.DrawRectangle (rect : RectangleI) (color : Color) (filled : Bool)
    (blendMode : BlendModes) (origin : Option PointF) (rotation : Rat) : GfxResult :=
  { drawCalls := 1
    calls := [ImplCall.rectangle rect color filled blendMode
        (origin.getD { X := 0, Y := 0 }) rotation] }

/-- Gfx::DrawCircle (Gfx.cpp): one counter increment, then the filled or the
outline circle implementor call. -/
def Gfx.DrawCircle (center : PointI) (radius : Int) (color : Color) (filled : Bool)
    (blendMode : BlendModes) : GfxResult :=
  { drawCalls := 1
    calls := [if filled then ImplCall.circleFill center radius color blendMode
      else ImplCall.circleLines center radius color blendMode] }

/-- Gfx::DrawPolygon (Gfx.cpp): delegates to the implementor without touching
the DrawCalls counter. -/
def Gfx.DrawPolygon (a : PointI) (b : PointI) (c : PointI) (color : Color)
    (blend : BlendModes) : GfxResult :=
  { drawCalls := 0, calls := [ImplCall.polygon a b c color blend] }

/-- Gfx::DrawQuad (Gfx.cpp): delegates to the implementor without touching the
DrawCalls counter. -/
def Gfx.DrawQuad (a : PointI) (b : PointI) (c : PointI) (d : PointI) (color : Color)
    (blend : BlendModes) : GfxResult :=
  { drawCalls := 0, calls := [ImplCall.quad a b c d color blend] }

/-- Gfx::ClearScreen (Gfx.cpp): one counter increment; an empty clear rectangle
is replaced by the full renderable area, else the given rectangle is used. -/
def Gfx.ClearScreen (st : GfxState) (color : Color) (clearRect : RectangleI) : GfxResult :=
  { drawCalls := 1
    calls :=
      if clearRect.Empty then
        [ImplCall.clear color
          { X := 0, Y := 0, Width := (Gfx.RenderableSize st).X,
            Height := (Gfx.RenderableSize st).Y }]
      else [ImplCall.clear color clearRect] }

/-- Outcome of GfxSdlWrapper::DrawImage: the wrapper reads sourceImage->Handle()
with no validity check, so a null image asset is dereferenced (a crash, not a
silent skip); with a live image one textured quad is issued with the resolved
size. -/
inductive DrawImageOutcome where
  | nullHandleDeref
  | drew (position : PointF) (size : PointI) (blend : BlendModes)
      (sourceRect : Option RectangleI) (origin : PointF) (rotation : Rat) (color : Color)
deriving DecidableEq, Repr

/-- GfxSdlWrapper::DrawImage (GfxSdlWrapper.cpp, full overload): switches to the
default textured effect if the shapes effect was current, updates the extra
alpha uniform, then dereferences the image handle and issues the textured quad
with SizeOrDefault applied. The effect bookkeeping is modelled separately by
EffectsState; this definition captures the handle access and the draw. -/
def GfxSdlWrapper.DrawImage (sourceImage : Option Image) (position : PointF)
    (size : PointI) (blend : BlendModes) (sourceRect : Option RectangleI)
    (origin : PointF) (rotation : Rat) (color : Color) : DrawImageOutcome :=
  match sourceImage with
  | none => DrawImageOutcome.nullHandleDeref
  | some img =>
    DrawImageOutcome.drew position (SizeOrDefault size sourceRect img) blend
      sourceRect origin rotation color

/-- One flat-shape draw issued by the GfxSdlWrapper shape helpers: the rectangle
handed to GfxOpenGL::DrawQuad together with the shape color uniform, the fill
flag, the blend mode set just before, and origin/rotation. -/
structure ShapeDraw where
  rect : RectangleI
  color : Color
  filled : Bool
  blend : BlendModes
  origin : PointF
  rotation : Rat
deriving DecidableEq, Repr

/-- GfxSdlWrapper::DrawRectangle (GfxSdlWrapper.cpp): sets the shapes effect,
the blend mode and the shape color uniform, then issues the quad. -/
def GfxSdlWrapper.DrawRectangle (rect : RectangleI) (color : Color) (filled : Bool)
    (blendMode : BlendModes) (origin : PointF) (rotation : Rat) : ShapeDraw :=
  { rect := rect, color := color, filled := filled, blend := blendMode,
    origin := origin, rotation := rotation }

/-- GfxSdlWrapper::ClearScreen (GfxSdlWrapper.cpp): copies the color, forces its
alpha component to 1, and draws a filled rectangle with blend mode Opaque. -/
def GfxSdlWrapper.ClearScreen (color : Color) (clearRect : RectangleI) : ShapeDraw :=
  let col : Color := { color with A := 1 }
  GfxSdlWrapper.DrawRectangle clearRect col true BlendModes.Opaque { X := 0, Y := 0 } 0

/-- One cached text texture (Gfx/FontsCache.h is not under src/). Modelled from
the spec: value of the glyph-texture cache, a texture handle plus the measured
width and height; a missing texture marks an absent entry. -/
structure CachedTexture where
  Texture : Option Nat
  Width : Int
  Height : Int
deriving DecidableEq, Repr

/-- The glyph-texture cache (Gfx/FontsCache.h is not under src/). Modelled from
the spec: entries keyed by the pair of font handle and exact string only. -/
structure FontsTextureCache where
  entries : List ((Nat × String) × CachedTexture)
deriving DecidableEq, Repr

/-- Lookup of the exact (font handle, string) key in the cache entry list. -/
def lookupEntry : List ((Nat × String) × CachedTexture) → Nat → String → Option CachedTexture
  | [], _, _ => none
  | e :: rest, font, text =>
    if e.1 = (font, text) then some e.2 else lookupEntry rest font text

/-- Modelled from the spec: FontsTextureCache::GetFromCache returns the cached
texture and measured size for the exact (font handle, string) key, or an entry
with no texture when the pair was never rasterized. -/
def FontsTextureCache.GetFromCache (c : FontsTextureCache) (font : Nat) (text : String) :
    CachedTexture :=
  match lookupEntry c.entries font text with
  | some e => e
  | none => { Texture := none, Width := 0, Height := 0 }

/-- The wrapper state threaded through text drawing: the glyph cache, the next
fresh texture id, and observation counters for texture uploads
(SDL_CreateTextureFromSurface) and issued primitives (GfxOpenGL::DrawTexture). -/
structure TextDrawState where
  cache : FontsTextureCache
  nextTexture : Nat
  uploads : Nat
  primitives : Nat
deriving DecidableEq, Repr

/-- The destination rectangle computed by GfxSdlWrapper::DrawTextAsTexture for
the outDestRect argument: floor the position, take absolute sizes, then shift
by origin times size truncated to int. -/
def computeOutDestRect (position : PointF) (size : PointI) (origin : PointF) : RectangleI :=
  let x0 : Int := ratFloor position.X
  let y0 : Int := ratFloor position.Y
  let w : Int := |size.X|
  let h : Int := |size.Y|
  { X := x0 - truncToInt (origin.X * (w : Rat))
    Y := y0 - truncToInt (origin.Y * (h : Rat))
    Width := w
    Height := h }

/-- Result of one GfxSdlWrapper::DrawText call: the updated wrapper state, the
rectangle reported through outDestRect, the texture handed to
DrawTextAsTexture, and the destination size after font-size scaling. -/
structure DrawTextResult where
  state : TextDrawState
  outDestRect : RectangleI
  texture : Option Nat
  destSize : PointI
deriving DecidableEq, Repr

/-- GfxSdlWrapper::DrawText (GfxSdlWrapper.cpp): looks the (font, text) pair up
in the glyph cache; on a miss rasterizes the string at the native font size
(maxWidth 0 replaced by 0xFFF) and uploads it as a new texture inserted into
the cache — also when dryrun is set. The destination size is the cached size
scaled by fontSize over the native font size (factor 1 when fontSize is 0,
truncated to int), the out rectangle is computed as in DrawTextAsTexture, and
the textured quad is issued only when dryrun is not set. The external SDL_ttf
measurement is the rasterize parameter, giving width and height of the surface
rendered for a font, a string and a wrap width. -/
def GfxSdlWrapper.DrawText (rasterize : Nat → String → Int → Int × Int)
    (fontNativeSize : Int) (font : Nat) (text : String) (position : PointF)
    (color : Color) (fontSize : Int) (blend : BlendModes) (origin : PointF)
    (rotation : Rat) (maxWidth : Int) (dryrun : Bool) (st : TextDrawState) :
    DrawTextResult :=
  let fromCache0 := st.cache.GetFromCache font text
  let step : CachedTexture × TextDrawState :=
    if fromCache0.Texture = none then
      let mw : Int := if maxWidth = 0 then 0xFFF else maxWidth
      let wh := rasterize font text mw
      let entry : CachedTexture := { Texture := some st.nextTexture, Width := wh.1, Height := wh.2 }
      (entry,
        { st with
          cache := { entries := ((font, text), entry) :: st.cache.entries }
          nextTexture := st.nextTexture + 1
          uploads := st.uploads + 1 })
    else (fromCache0, st)
  let fromCache := step.1
  let st1 := step.2
  let sizeFactor : Rat := if fontSize ≠ 0 then (fontSize : Rat) / (fontNativeSize : Rat) else 1
  let size : PointI :=
    { X := truncToInt ((fromCache.Width : Rat) * sizeFactor)
      Y := truncToInt ((fromCache.Height : Rat) * sizeFactor) }
  { state := { st1 with primitives := st1.primitives + (if dryrun then 0 else 1) }
    outDestRect := computeOutDestRect position size origin
    texture := fromCache.Texture
    destSize := size }

/-- Gfx::GetTextBoundingBox (Gfx.cpp): delegates to the implementor DrawText in
dry-run mode with color white, blend AlphaBlend and the origin pointer
defaulting to (0,0), and returns the rectangle it reports. -/
def Gfx.GetTextBoundingBox (rasterize : Nat → String → Int → Int × Int)
    (fontNativeSize : Int) (font : Nat) (text : String) (position : PointF)
    (fontSize : Int) (maxWidth : Int) (origin : Option PointF) (rotation : Rat)
    (st : TextDrawState) : DrawTextResult :=
  GfxSdlWrapper.DrawText rasterize fontNativeSize font text position
    { R := 1, G := 1, B := 1, A := 1 } fontSize BlendModes.AlphaBlend
    (origin.getD { X := 0, Y := 0 }) rotation maxWidth true st

/-! ## Theorems -/

/-- Claim C6: in DrawImage a requested size component of 0 is resolved
independently per axis — a zero X (resp. Y) becomes the source rectangle width
(resp. height) when a non-zero one is given, else the image natural width
(resp. height); non-zero components pass through unchanged. In particular size
(0,0) with no source rectangle on a 64 by 48 image yields a destination
rectangle of width 64 and height 48. -/
theorem sizeOrDefault_per_axis :
    (∀ (size : PointI) (sourceRect : Option RectangleI) (img : Image),
      (SizeOrDefault size sourceRect img).X =
        (if size.X = 0 then
          match sourceRect with
          | some sr => if sr.Width ≠ 0 then sr.Width else img.Width
          | none => img.Width
        else size.X) ∧
      (SizeOrDefault size sourceRect img).Y =
        (if size.Y = 0 then
          match sourceRect with
          | some sr => if sr.Height ≠ 0 then sr.Height else img.Height
          | none => img.Height
        else size.Y)) ∧
    SizeOrDefault { X := 0, Y := 0 } none
        { Width := 64, Height := 48, HaveAlphaChannel := true } = { X := 64, Y := 48 } ∧
    GfxSdlWrapper.DrawImage (some { Width := 64, Height := 48, HaveAlphaChannel := true })
        { X := 3, Y := 4 } { X := 0, Y := 0 } BlendModes.AlphaBlend none { X := 0, Y := 0 } 0
        { R := 1, G := 1, B := 1, A := 1 } =
      DrawImageOutcome.drew { X := 3, Y := 4 } { X := 64, Y := 48 } BlendModes.AlphaBlend
        none { X := 0, Y := 0 } 0 { R := 1, G := 1, B := 1, A := 1 } := by
  refine ⟨fun size sourceRect img => ?_, by decide, by decide⟩
  by_cases hx : size.X = 0 <;> by_cases hy : size.Y = 0 <;>
    simp [SizeOrDefault, hx, hy]

/-- Claim C10: the backend ClearScreen always clears fully opaque — for every
color and rectangle it draws a filled rectangle in the requested color with the
alpha component forced to 1, with blend mode Opaque, whatever alpha the caller
passed. -/
theorem clearScreen_forces_opaque (color : Color) (clearRect : RectangleI) :
    GfxSdlWrapper.ClearScreen color clearRect =
      GfxSdlWrapper.DrawRectangle clearRect { color with A := 1 } true
        BlendModes.Opaque { X := 0, Y := 0 } 0 ∧
    (GfxSdlWrapper.ClearScreen color clearRect).color.A = 1 ∧
    (GfxSdlWrapper.ClearScreen color clearRect).color.R = color.R ∧
    (GfxSdlWrapper.ClearScreen color clearRect).color.G = color.G ∧
    (GfxSdlWrapper.ClearScreen color clearRect).color.B = color.B ∧
    (GfxSdlWrapper.ClearScreen color clearRect).filled = true ∧
    (GfxSdlWrapper.ClearScreen color clearRect).blend = BlendModes.Opaque ∧
    (GfxSdlWrapper.ClearScreen color clearRect).rect = clearRect := by
  refine ⟨rfl, rfl, rfl, rfl, rfl, rfl, rfl, rfl⟩

/-- Claim C8: the null sentinel on SetEffect switches to the default textured
effect without raising, while handing a literally null effect handle to the
effect-setting backend raises InvalidValue synchronously. -/
theorem setEffect_null_sentinel_vs_null_handle (st : EffectsState) (d : Nat)
    (hd : st.defaultEffect = some d) :
    (∃ st2, GfxSdlWrapper.SetEffect none st = Except.ok st2 ∧
      st2.currentEffect = some d) ∧
    GfxSdlWrapper.SetCurrentEffectFromAsset none st = Except.error GfxError.InvalidValue := by
  constructor
  · unfold GfxSdlWrapper.SetEffect
    rw [hd]
    unfold GfxSdlWrapper.SetCurrentEffectFromAsset
    by_cases h : some d = st.currentEffect
    · exact ⟨st, by simp [h], h.symm⟩
    · refine ⟨{ st with
          lastRotation := -9999999999999
          lastAnchor := { X := -9999999999, Y := -9999999999 }
          binds := st.binds + 1
          currentEffect := some d
          stateResets := st.stateResets + 1 }, by simp [h], rfl⟩
  · rfl

/-- Witness for setEffect_null_sentinel_vs_null_handle at a concrete state. -/
theorem setEffect_null_sentinel_vs_null_handle_witness :
    (∃ st2, GfxSdlWrapper.SetEffect none
        { currentEffect := none, defaultEffect := some 1, defaultEffectShapes := some 2,
          lastRotation := 0, lastAnchor := { X := 0, Y := 0 }, binds := 0,
          stateResets := 0 } = Except.ok st2 ∧ st2.currentEffect = some 1) ∧
    GfxSdlWrapper.SetCurrentEffectFromAsset none
        { currentEffect := none, defaultEffect := some 1, defaultEffectShapes := some 2,
          lastRotation := 0, lastAnchor := { X := 0, Y := 0 }, binds := 0,
          stateResets := 0 } = Except.error GfxError.InvalidValue :=
  setEffect_null_sentinel_vs_null_handle _ 1 rfl

/-- Counterexample to claim C1 as stated: calling the DrawImage facade with a
null image handle still increments the DrawCalls counter, and the backend
dereferences the null handle instead of skipping silently. -/
theorem drawImage_null_counter_cex :
    (Gfx.DrawImage none { X := 5, Y := 7 } none BlendModes.AlphaBlend none none 0
      none).drawCalls = 1 ∧
    GfxSdlWrapper.DrawImage none { X := 5, Y := 7 } { X := 0, Y := 0 }
        BlendModes.AlphaBlend none { X := 0, Y := 0 } 0
        { R := 1, G := 1, B := 1, A := 1 } = DrawImageOutcome.nullHandleDeref := by
  exact ⟨rfl, rfl⟩

/-- Claim C1 amended: Gfx::DrawImage performs no validity check — it increments
the DrawCalls counter exactly once for every call, a null image included, and
the backend dereferences a null image handle rather than silently skipping the
draw. -/
theorem drawImage_counter_unconditional (sourceImage : Option Image) (position : PointF)
    (size : Option PointI) (blend : BlendModes) (sourceRect : Option RectangleI)
    (origin : Option PointF) (rotation : Rat) (color : Option Color)
    (pos2 : PointF) (size2 : PointI) (origin2 : PointF) (color2 : Color) :
    (Gfx.DrawImage sourceImage position size blend sourceRect origin rotation
      color).drawCalls = 1 ∧
    (sourceImage = none →
      GfxSdlWrapper.DrawImage sourceImage pos2 size2 blend sourceRect origin2 rotation
        color2 = DrawImageOutcome.nullHandleDeref) := by
  refine ⟨rfl, fun h => ?_⟩
  subst h
  rfl

/-- Witness for drawImage_counter_unconditional at concrete arguments. -/
theorem drawImage_counter_unconditional_witness :
    (Gfx.DrawImage none { X := 1, Y := 2 } none BlendModes.Additive none none 0
      none).drawCalls = 1 ∧
    GfxSdlWrapper.DrawImage none { X := 3, Y := 4 } { X := 10, Y := 10 }
        BlendModes.Additive none { X := 0, Y := 0 } 0
        { R := 1, G := 1, B := 1, A := 1 } = DrawImageOutcome.nullHandleDeref :=
  ⟨(drawImage_counter_unconditional none { X := 1, Y := 2 } none BlendModes.Additive
      none none 0 none { X := 3, Y := 4 } { X := 10, Y := 10 } { X := 0, Y := 0 }
      { R := 1, G := 1, B := 1, A := 1 }).1,
    (drawImage_counter_unconditional none { X := 1, Y := 2 } none BlendModes.Additive
      none none 0 none { X := 3, Y := 4 } { X := 10, Y := 10 } { X := 0, Y := 0 }
      { R := 1, G := 1, B := 1, A := 1 }).2 rfl⟩

/-- Counterexample to claim C5 as stated: Gfx::DrawPolygon issues a primitive
without incrementing the DrawCalls counter. -/
theorem drawPolygon_no_counter_cex :
    (Gfx.DrawPolygon { X := 0, Y := 0 } { X := 10, Y := 0 } { X := 0, Y := 10 }
      { R := 1, G := 1, B := 1, A := 1 } BlendModes.AlphaBlend).drawCalls = 0 ∧
    (Gfx.DrawPolygon { X := 0, Y := 0 } { X := 10, Y := 0 } { X := 0, Y := 10 }
      { R := 1, G := 1, B := 1, A := 1 } BlendModes.AlphaBlend).calls.length = 1 := by
  exact ⟨rfl, rfl⟩

/-- Claim C5 amended: DrawImage, DrawText, DrawLine, DrawPixel, DrawRectangle,
DrawCircle and ClearScreen increment the DrawCalls counter exactly once per
implementor primitive they issue (DrawText once per outline pass plus once for
the fill), but DrawPolygon and DrawQuad issue their primitive without any
increment. -/
theorem drawCalls_counter_per_operation (sourceImage : Option Image) (position : PointF)
    (size : Option PointI) (blend : BlendModes) (sourceRect : Option RectangleI)
    (origin : Option PointF) (rotation : Rat) (color : Option Color)
    (font : Nat) (text : String) (tcolor : Option Color) (fontSize maxWidth : Int)
    (outlineWidth : Int) (outlineColor : Option Color)
    (p1 p2 center : PointI) (scolor : Color) (rect : RectangleI) (filled : Bool)
    (radius : Int) (a b c d : PointI) (gst : GfxState) (clearRect : RectangleI) :
    ((Gfx.DrawImage sourceImage position size blend sourceRect origin rotation
        color).drawCalls =
      (Gfx.DrawImage sourceImage position size blend sourceRect origin rotation
        color).calls.length) ∧
    ((Gfx.DrawText font text position tcolor fontSize maxWidth blend origin rotation
        outlineWidth outlineColor).drawCalls =
      (Gfx.DrawText font text position tcolor fontSize maxWidth blend origin rotation
        outlineWidth outlineColor).calls.length) ∧
    ((Gfx.DrawLine p1 p2 scolor blend).drawCalls =
      (Gfx.DrawLine p1 p2 scolor blend).calls.length) ∧
    ((Gfx.DrawPixel p1 scolor blend).drawCalls =
      (Gfx.DrawPixel p1 scolor blend).calls.length) ∧
    ((Gfx.DrawRectangle rect scolor filled blend origin rotation).drawCalls =
      (Gfx.DrawRectangle rect scolor filled blend origin rotation).calls.length) ∧
    ((Gfx.DrawCircle center radius scolor filled blend).drawCalls =
      (Gfx.DrawCircle center radius scolor filled blend).calls.length) ∧
    ((Gfx.ClearScreen gst scolor clearRect).drawCalls =
      (Gfx.ClearScreen gst scolor clearRect).calls.length) ∧
    ((Gfx.DrawPolygon a b c scolor blend).drawCalls = 0 ∧
      (Gfx.DrawPolygon a b c scolor blend).calls.length = 1) ∧
    ((Gfx.DrawQuad a b c d scolor blend).drawCalls = 0 ∧
      (Gfx.DrawQuad a b c d scolor blend).calls.length = 1) := by
  refine ⟨rfl, ?_, rfl, rfl, rfl, rfl, ?_, ⟨rfl, rfl⟩, ⟨rfl, rfl⟩⟩
  · simp [Gfx.DrawText]
  · simp [Gfx.ClearScreen]
    by_cases h : clearRect.Empty <;> simp [h]

/-- Requesting the effect that is already current leaves the backend state
untouched, for any number of consecutive requests. -/
theorem setCurrentEffectN_noop (e : Nat) (m : Nat) (st : EffectsState)
    (h : st.currentEffect = some e) :
    GfxSdlWrapper.SetCurrentEffectN (some e) m st = Except.ok st := by
  induction m with
  | zero => rfl
  | succ k ih =>
    unfold GfxSdlWrapper.SetCurrentEffectN GfxSdlWrapper.SetCurrentEffectFromAsset
    simp [h, ih]

/-- Claim C3: a sequence of n consecutive backend requests for the same effect
performs exactly one shader-program bind and one state reset when the effect
was not current, and zero when it already was; requesting the already-current
effect is a complete no-op. -/
theorem effect_switch_minimality (e : Nat) (st : EffectsState) (n : Nat) (hn : 1 ≤ n) :
    (∃ st2, GfxSdlWrapper.SetCurrentEffectN (some e) n st = Except.ok st2 ∧
      st2.currentEffect = some e ∧
      st2.binds = st.binds + (if st.currentEffect = some e then 0 else 1) ∧
      st2.stateResets = st.stateResets + (if st.currentEffect = some e then 0 else 1)) ∧
    (st.currentEffect = some e →
      GfxSdlWrapper.SetCurrentEffectFromAsset (some e) st = Except.ok st) := by
  constructor
  · obtain ⟨m, rfl⟩ : ∃ m, n = m + 1 := ⟨n - 1, by omega⟩
    by_cases h : st.currentEffect = some e
    · refine ⟨st, ?_, h, by simp [h], by simp [h]⟩
      exact setCurrentEffectN_noop e (m + 1) st h
    · refine ⟨{ st with
          lastRotation := -9999999999999
          lastAnchor := { X := -9999999999, Y := -9999999999 }
          binds := st.binds + 1
          currentEffect := some e
          stateResets := st.stateResets + 1 }, ?_, rfl, by simp [h], by simp [h]⟩
      have h2 : some e ≠ st.currentEffect := fun hc => h hc.symm
      have hstep : GfxSdlWrapper.SetCurrentEffectFromAsset (some e) st =
          Except.ok { st with
            lastRotation := -9999999999999
            lastAnchor := { X := -9999999999, Y := -9999999999 }
            binds := st.binds + 1
            currentEffect := some e
            stateResets := st.stateResets + 1 } := by
        simp only [GfxSdlWrapper.SetCurrentEffectFromAsset]
        rw [if_pos h2]
      unfold GfxSdlWrapper.SetCurrentEffectN
      rw [hstep]
      exact setCurrentEffectN_noop e m _ rfl
  · intro h
    unfold GfxSdlWrapper.SetCurrentEffectFromAsset
    simp [h]

/-- Witness for effect_switch_minimality: three draws requesting effect 5 from a
state where effect 9 is current bind the program exactly once. -/
theorem effect_switch_minimality_witness :
    (∃ st2, GfxSdlWrapper.SetCurrentEffectN (some 5) 3
        { currentEffect := some 9, defaultEffect := some 1, defaultEffectShapes := some 2,
          lastRotation := 0, lastAnchor := { X := 0, Y := 0 }, binds := 0,
          stateResets := 0 } = Except.ok st2 ∧
      st2.currentEffect = some 5 ∧
      st2.binds = 0 + (if (some 9 : Option Nat) = some 5 then 0 else 1) ∧
      st2.stateResets = 0 + (if (some 9 : Option Nat) = some 5 then 0 else 1)) ∧
    ((some 9 : Option Nat) = some 5 →
      GfxSdlWrapper.SetCurrentEffectFromAsset (some 5)
        { currentEffect := some 9, defaultEffect := some 1, defaultEffectShapes := some 2,
          lastRotation := 0, lastAnchor := { X := 0, Y := 0 }, binds := 0,
          stateResets := 0 } = Except.ok
        { currentEffect := some 9, defaultEffect := some 1, defaultEffectShapes := some 2,
          lastRotation := 0, lastAnchor := { X := 0, Y := 0 }, binds := 0,
          stateResets := 0 }) :=
  effect_switch_minimality 5
    { currentEffect := some 9, defaultEffect := some 1, defaultEffectShapes := some 2,
      lastRotation := 0, lastAnchor := { X := 0, Y := 0 }, binds := 0,
      stateResets := 0 } 3 (by decide)

/-- Claim C9: with a positive outline width, Gfx::DrawText issues exactly the
eight offset draws of the 3 by 3 neighborhood minus the center, in loop order,
each at offset i times outlineWidth, j times outlineWidth in the outline color
(default black), followed by the single fill draw at the unshifted position in
the text color (default white). -/
theorem drawText_outline_pattern (font : Nat) (text : String) (position : PointF)
    (color : Option Color) (fontSize maxWidth : Int) (blend : BlendModes)
    (origin : Option PointF) (rotation : Rat) (outlineWidth : Int)
    (outlineColor : Option Color) (how : 0 < outlineWidth) :
    (Gfx.DrawText font text position color fontSize maxWidth blend origin rotation
        outlineWidth outlineColor).calls =
      (let oc := outlineColor.getD { R := 0, G := 0, B := 0, A := 1 }
       let og := origin.getD { X := 0, Y := 0 }
       let off : Int → Int → ImplCall := fun i j =>
         ImplCall.text font text
           { X := position.X + (i : Rat) * (outlineWidth : Rat)
             Y := position.Y + (j : Rat) * (outlineWidth : Rat) }
           oc fontSize blend og rotation maxWidth
       [off (-1) (-1), off (-1) 0, off (-1) 1, off 0 (-1), off 0 1,
        off 1 (-1), off 1 0, off 1 1,
        ImplCall.text font text position
          (color.getD { R := 1, G := 1, B := 1, A := 1 }) fontSize blend og rotation
          maxWidth]) := by
  simp only [Gfx.DrawText, outlineOffsets]
  rw [if_pos how]
  rfl

/-- Witness for drawText_outline_pattern with outline width 2 at position
(10, 20): the eight offsets and the fill, fully evaluated. -/
theorem drawText_outline_pattern_witness :
    (Gfx.DrawText 1 "Hi" { X := 10, Y := 20 } none 0 0 BlendModes.AlphaBlend none 0 2
        none).calls =
      [ImplCall.text 1 "Hi" { X := 8, Y := 18 } { R := 0, G := 0, B := 0, A := 1 } 0
          BlendModes.AlphaBlend { X := 0, Y := 0 } 0 0,
        ImplCall.text 1 "Hi" { X := 8, Y := 20 } { R := 0, G := 0, B := 0, A := 1 } 0
          BlendModes.AlphaBlend { X := 0, Y := 0 } 0 0,
        ImplCall.text 1 "Hi" { X := 8, Y := 22 } { R := 0, G := 0, B := 0, A := 1 } 0
          BlendModes.AlphaBlend { X := 0, Y := 0 } 0 0,
        ImplCall.text 1 "Hi" { X := 10, Y := 18 } { R := 0, G := 0, B := 0, A := 1 } 0
          BlendModes.AlphaBlend { X := 0, Y := 0 } 0 0,
        ImplCall.text 1 "Hi" { X := 10, Y := 22 } { R := 0, G := 0, B := 0, A := 1 } 0
          BlendModes.AlphaBlend { X := 0, Y := 0 } 0 0,
        ImplCall.text 1 "Hi" { X := 12, Y := 18 } { R := 0, G := 0, B := 0, A := 1 } 0
          BlendModes.AlphaBlend { X := 0, Y := 0 } 0 0,
        ImplCall.text 1 "Hi" { X := 12, Y := 20 } { R := 0, G := 0, B := 0, A := 1 } 0
          BlendModes.AlphaBlend { X := 0, Y := 0 } 0 0,
        ImplCall.text 1 "Hi" { X := 12, Y := 22 } { R := 0, G := 0, B := 0, A := 1 } 0
          BlendModes.AlphaBlend { X := 0, Y := 0 } 0 0,
        ImplCall.text 1 "Hi" { X := 10, Y := 20 } { R := 1, G := 1, B := 1, A := 1 } 0
          BlendModes.AlphaBlend { X := 0, Y := 0 } 0 0] :=
  (drawText_outline_pattern 1 "Hi" { X := 10, Y := 20 } none 0 0 BlendModes.AlphaBlend
      none 0 2 none (by decide)).trans (by norm_num)

/-- Claim C4: for well-formed state (render target dimensions non-zero when one
is set, viewport width zero exactly when its height is zero), RenderableSize is,
independently per axis, the minimum of the values that are set among render
target size, viewport size and window size, falling back to the window size. -/
theorem renderableSize_is_componentwise_min (st : GfxState)
    (hrt : ∀ img, st.renderTarget = some img → img.Width ≠ 0 ∧ img.Height ≠ 0)
    (hvp : st.viewport.Width = 0 ↔ st.viewport.Height = 0) :
    Gfx.RenderableSize st =
      { X := specAxisSize (st.renderTarget.map Image.Width)
          (if st.viewport.Width = 0 then none else some st.viewport.Width)
          st.windowWidth
        Y := specAxisSize (st.renderTarget.map Image.Height)
          (if st.viewport.Height = 0 then none else some st.viewport.Height)
          st.windowHeight } := by
  obtain ⟨rt, vp, ww, wh⟩ := st
  simp only at hrt hvp
  by_cases hw : vp.Width = 0
  · have hh : vp.Height = 0 := hvp.mp hw
    have hemp : vp.Empty = true := by
      simp [RectangleI.Empty, hw]
    cases rt with
    | none => simp [Gfx.RenderableSize, specAxisSize, hemp, hw, hh]
    | some img =>
      obtain ⟨h1, h2⟩ := hrt img rfl
      simp [Gfx.RenderableSize, specAxisSize, hemp, hw, hh, h1, h2]
  · have hh : vp.Height ≠ 0 := fun h => hw (hvp.mpr h)
    have hemp : vp.Empty = false := by
      simp [RectangleI.Empty, hw, hh]
    cases rt with
    | none => simp [Gfx.RenderableSize, specAxisSize, hemp, hw, hh]
    | some img =>
      obtain ⟨h1, h2⟩ := hrt img rfl
      have hmx : min img.Width vp.Width ≠ 0 := by
        rcases le_total img.Width vp.Width with h | h
        · rw [min_eq_left h]; exact h1
        · rw [min_eq_right h]; exact hw
      have hmy : min img.Height vp.Height ≠ 0 := by
        rcases le_total img.Height vp.Height with h | h
        · rw [min_eq_left h]; exact h2
        · rw [min_eq_right h]; exact hh
      simp [Gfx.RenderableSize, specAxisSize, hemp, hw, hh, h1, h2, hmx, hmy,
        min_assoc]

/-- Witness for renderableSize_is_componentwise_min: window (800,600) with
viewport (0,0,400,300) and no render target gives (400,300); window (800,600)
with a (200,200) render target and no viewport gives (200,200). -/
theorem renderableSize_is_componentwise_min_witness :
    Gfx.RenderableSize
        { renderTarget := none, viewport := { X := 0, Y := 0, Width := 400, Height := 300 },
          windowWidth := 800, windowHeight := 600 } = { X := 400, Y := 300 } ∧
    Gfx.RenderableSize
        { renderTarget := some { Width := 200, Height := 200, HaveAlphaChannel := true },
          viewport := { X := 0, Y := 0, Width := 0, Height := 0 },
          windowWidth := 800, windowHeight := 600 } = { X := 200, Y := 200 } :=
  ⟨renderableSize_is_componentwise_min
      { renderTarget := none, viewport := { X := 0, Y := 0, Width := 400, Height := 300 },
        windowWidth := 800, windowHeight := 600 }
      (fun img h => by simp at h) (by decide),
    renderableSize_is_componentwise_min
      { renderTarget := some { Width := 200, Height := 200, HaveAlphaChannel := true },
        viewport := { X := 0, Y := 0, Width := 0, Height := 0 },
        windowWidth := 800, windowHeight := 600 }
      (fun img h => by
        simp only [Option.some.injEq] at h
        subst h
        exact ⟨by decide, by decide⟩) (by decide)⟩

/-- A freshly inserted cache entry is found by the exact-key lookup. -/
theorem lookupEntry_head (font : Nat) (text : String) (e : CachedTexture)
    (l : List ((Nat × String) × CachedTexture)) :
    lookupEntry (((font, text), e) :: l) font text = some e := by
  simp [lookupEntry]

/-- A freshly inserted cache entry is what GetFromCache returns for its key. -/
theorem getFromCache_cons (font : Nat) (text : String) (e : CachedTexture)
    (l : List ((Nat × String) × CachedTexture)) :
    FontsTextureCache.GetFromCache { entries := ((font, text), e) :: l } font text = e := by
  simp [FontsTextureCache.GetFromCache, lookupEntry_head]

/-- DrawText on a cache hit: no cache change, no upload, the cached texture is
used and the destination size is the cached size scaled by the font-size
factor; a primitive is issued only when dryrun is not set. -/
theorem drawText_hit (rasterize : Nat → String → Int → Int × Int)
    (fontNativeSize : Int) (font : Nat) (text : String) (position : PointF)
    (color : Color) (fontSize : Int) (blend : BlendModes) (origin : PointF)
    (rotation : Rat) (maxWidth : Int) (dryrun : Bool) (st : TextDrawState)
    (h : (st.cache.GetFromCache font text).Texture ≠ none) :
    GfxSdlWrapper.DrawText rasterize fontNativeSize font text position color fontSize
        blend origin rotation maxWidth dryrun st =
      { state := { st with primitives := st.primitives + (if dryrun then 0 else 1) }
        outDestRect := computeOutDestRect position
          { X := truncToInt (((st.cache.GetFromCache font text).Width : Rat) *
              (if fontSize ≠ 0 then (fontSize : Rat) / (fontNativeSize : Rat) else 1))
            Y := truncToInt (((st.cache.GetFromCache font text).Height : Rat) *
              (if fontSize ≠ 0 then (fontSize : Rat) / (fontNativeSize : Rat) else 1)) }
          origin
        texture := (st.cache.GetFromCache font text).Texture
        destSize :=
          { X := truncToInt (((st.cache.GetFromCache font text).Width : Rat) *
              (if fontSize ≠ 0 then (fontSize : Rat) / (fontNativeSize : Rat) else 1))
            Y := truncToInt (((st.cache.GetFromCache font text).Height : Rat) *
              (if fontSize ≠ 0 then (fontSize : Rat) / (fontNativeSize : Rat) else 1)) } } := by
  simp only [GfxSdlWrapper.DrawText, h, if_neg, ite_false]

/-- DrawText on a cache miss: the string is rasterized at the wrap width
(maxWidth 0 replaced by 0xFFF), a fresh texture is uploaded and inserted at the
head of the cache, and the destination size scales the measured size. -/
theorem drawText_miss (rasterize : Nat → String → Int → Int × Int)
    (fontNativeSize : Int) (font : Nat) (text : String) (position : PointF)
    (color : Color) (fontSize : Int) (blend : BlendModes) (origin : PointF)
    (rotation : Rat) (maxWidth : Int) (dryrun : Bool) (st : TextDrawState)
    (h : (st.cache.GetFromCache font text).Texture = none) :
    GfxSdlWrapper.DrawText rasterize fontNativeSize font text position color fontSize
        blend origin rotation maxWidth dryrun st =
      (let wh := rasterize font text (if maxWidth = 0 then 0xFFF else maxWidth)
       let entry : CachedTexture :=
         { Texture := some st.nextTexture, Width := wh.1, Height := wh.2 }
       let size : PointI :=
         { X := truncToInt ((wh.1 : Rat) *
             (if fontSize ≠ 0 then (fontSize : Rat) / (fontNativeSize : Rat) else 1))
           Y := truncToInt ((wh.2 : Rat) *
             (if fontSize ≠ 0 then (fontSize : Rat) / (fontNativeSize : Rat) else 1)) }
       { state :=
           { cache := { entries := ((font, text), entry) :: st.cache.entries }
             nextTexture := st.nextTexture + 1
             uploads := st.uploads + 1
             primitives := st.primitives + (if dryrun then 0 else 1) }
         outDestRect := computeOutDestRect position size origin
         texture := some st.nextTexture
         destSize := size }) := by
  simp only [GfxSdlWrapper.DrawText, h, if_pos, ite_true]

/-- Counterexample to claim C2 as stated: with an empty glyph cache, the
GetTextBoundingBox dry run itself rasterizes the string and uploads a texture
into the cache, so it does not have zero GPU side effects. -/
theorem getTextBoundingBox_uploads_on_miss_cex :
    (Gfx.GetTextBoundingBox (fun _ _ _ => (10, 12)) 32 1 "Hello" { X := 0, Y := 0 } 0 0
        none 0
        { cache := { entries := [] }, nextTexture := 0, uploads := 0,
          primitives := 0 }).state.uploads = 1 := by
  rfl

/-- Claim C2 amended: the dry run returns the same rectangle that a real
DrawText with the same font, text, position, fontSize, maxWidth, origin and
rotation reports through its out-rectangle (whatever color and blend the real
draw uses), and it issues no primitive; it performs no texture upload only when
the (font, text) pair is already cached — on a cache miss the dry run
rasterizes and uploads the glyph texture into the cache. -/
theorem getTextBoundingBox_matches_real_draw (rasterize : Nat → String → Int → Int × Int)
    (fontNativeSize : Int) (font : Nat) (text : String) (position : PointF)
    (color : Color) (fontSize : Int) (blend : BlendModes) (origin : Option PointF)
    (rotation : Rat) (maxWidth : Int) (st : TextDrawState) :
    let dry := Gfx.GetTextBoundingBox rasterize fontNativeSize font text position
      fontSize maxWidth origin rotation st
    let real := GfxSdlWrapper.DrawText rasterize fontNativeSize font text position
      color fontSize blend (origin.getD { X := 0, Y := 0 }) rotation maxWidth false
      dry.state
    real.outDestRect = dry.outDestRect ∧
    dry.state.primitives = st.primitives ∧
    ((st.cache.GetFromCache font text).Texture ≠ none → dry.state.uploads = st.uploads) := by
  by_cases h : (st.cache.GetFromCache font text).Texture = none
  · rw [Gfx.GetTextBoundingBox, drawText_miss _ _ _ _ _ _ _ _ _ _ _ _ _ h]
    refine ⟨?_, by simp, fun hc => absurd h hc⟩
    rw [drawText_hit]
    · simp [getFromCache_cons]
    · simp [getFromCache_cons]
  · rw [Gfx.GetTextBoundingBox, drawText_hit _ _ _ _ _ _ _ _ _ _ _ _ _ h]
    refine ⟨?_, by simp, fun _ => by simp⟩
    rw [drawText_hit]
    all_goals first | rfl | exact h

/-- Witness for getTextBoundingBox_matches_real_draw on a warm cache: the
entry for font 1 and the string is already present, so the dry run uploads
nothing, issues nothing, and matches the real draw rectangle. -/
theorem getTextBoundingBox_matches_real_draw_witness :
    let st : TextDrawState :=
      { cache := { entries := [((1, "Hello"), { Texture := some 7, Width := 40, Height := 12 })] },
        nextTexture := 8, uploads := 1, primitives := 0 }
    let dry := Gfx.GetTextBoundingBox (fun _ _ _ => (40, 12)) 32 1 "Hello"
      { X := 0, Y := 0 } 0 0 none 0 st
    let real := GfxSdlWrapper.DrawText (fun _ _ _ => (40, 12)) 32 1 "Hello"
      { X := 0, Y := 0 } { R := 1, G := 0, B := 0, A := 1 } 0 BlendModes.Additive
      ((none : Option PointF).getD { X := 0, Y := 0 }) 0 0 false dry.state
    real.outDestRect = dry.outDestRect ∧
    dry.state.primitives = st.primitives ∧
    ((st.cache.GetFromCache 1 "Hello").Texture ≠ none → dry.state.uploads = st.uploads) :=
  getTextBoundingBox_matches_real_draw (fun _ _ _ => (40, 12)) 32 1 "Hello"
    { X := 0, Y := 0 } { R := 1, G := 0, B := 0, A := 1 } 0 BlendModes.Additive none 0 0
    { cache := { entries := [((1, "Hello"), { Texture := some 7, Width := 40, Height := 12 })] },
      nextTexture := 8, uploads := 1, primitives := 0 }

/-- Claim C7: the glyph cache is keyed by font handle and exact string only —
a second draw of the same (font, text) pair, with any other font size, color,
blend, position or wrap width, performs no further upload and reuses the same
backing texture; the requested font size only scales the destination size by
fontSize over the native font size, with factor 1 when fontSize is 0. -/
theorem text_cache_reuse_and_scaling (rasterize : Nat → String → Int → Int × Int)
    (fontNativeSize : Int) (font : Nat) (text : String) (pos1 pos2 : PointF)
    (c1 c2 : Color) (fs1 fs2 : Int) (b1 b2 : BlendModes) (or1 or2 : PointF)
    (rot1 rot2 : Rat) (mw1 mw2 : Int) (st : TextDrawState)
    (hnative : 0 < fontNativeSize) :
    let r1 := GfxSdlWrapper.DrawText rasterize fontNativeSize font text pos1 c1 fs1 b1
      or1 rot1 mw1 false st
    let r2 := GfxSdlWrapper.DrawText rasterize fontNativeSize font text pos2 c2 fs2 b2
      or2 rot2 mw2 false r1.state
    r2.state.uploads = r1.state.uploads ∧
    r2.texture = r1.texture ∧
    r2.texture.isSome = true ∧
    r2.destSize =
      { X := truncToInt (((r1.state.cache.GetFromCache font text).Width : Rat) *
          (if fs2 ≠ 0 then (fs2 : Rat) / (fontNativeSize : Rat) else 1))
        Y := truncToInt (((r1.state.cache.GetFromCache font text).Height : Rat) *
          (if fs2 ≠ 0 then (fs2 : Rat) / (fontNativeSize : Rat) else 1)) } := by
  by_cases h : (st.cache.GetFromCache font text).Texture = none
  · rw [drawText_miss _ _ _ _ _ _ _ _ _ _ _ _ _ h]
    refine ⟨?_, ?_, ?_, ?_⟩ <;> rw [drawText_hit] <;> simp [getFromCache_cons]
  · rw [drawText_hit _ _ _ _ _ _ _ _ _ _ _ _ _ h]
    refine ⟨?_, ?_, ?_, ?_⟩ <;> rw [drawText_hit] <;>
      first
        | rfl
        | exact h
        | exact Option.ne_none_iff_isSome.mp h

/-- Witness for text_cache_reuse_and_scaling: drawing (font 1, "Score: 10")
twice, first at the native size and then at font size 64 over native 32,
uploads once, reuses the texture, and scales only the destination size. -/
theorem text_cache_reuse_and_scaling_witness :
    let r1 := GfxSdlWrapper.DrawText (fun _ _ _ => (100, 20)) 32 1 "Score: 10"
      { X := 0, Y := 0 } { R := 1, G := 1, B := 1, A := 1 } 0 BlendModes.AlphaBlend
      { X := 0, Y := 0 } 0 0 false
      { cache := { entries := [] }, nextTexture := 0, uploads := 0, primitives := 0 }
    let r2 := GfxSdlWrapper.DrawText (fun _ _ _ => (100, 20)) 32 1 "Score: 10"
      { X := 5, Y := 6 } { R := 0, G := 0, B := 1, A := 1 } 64 BlendModes.Additive
      { X := 0, Y := 0 } 0 0 false r1.state
    r2.state.uploads = r1.state.uploads ∧
    r2.texture = r1.texture ∧
    r2.texture.isSome = true ∧
    r2.destSize =
      { X := truncToInt (((r1.state.cache.GetFromCache 1 "Score: 10").Width : Rat) *
          (if (64 : Int) ≠ 0 then ((64 : Int) : Rat) / ((32 : Int) : Rat) else 1))
        Y := truncToInt (((r1.state.cache.GetFromCache 1 "Score: 10").Height : Rat) *
          (if (64 : Int) ≠ 0 then ((64 : Int) : Rat) / ((32 : Int) : Rat) else 1)) } :=
  text_cache_reuse_and_scaling (fun _ _ _ => (100, 20)) 32 1 "Score: 10"
    { X := 0, Y := 0 } { X := 5, Y := 6 } { R := 1, G := 1, B := 1, A := 1 }
    { R := 0, G := 0, B := 1, A := 1 } 0 64 BlendModes.AlphaBlend BlendModes.Additive
    { X := 0, Y := 0 } { X := 0, Y := 0 } 0 0 0 0
    { cache := { entries := [] }, nextTexture := 0, uploads := 0, primitives := 0 }
    (by decide)

end BonEngine
